import Mathlib

/-!
Verification of the Prompt2Mesh task-orchestration engine against its
natural-language specification.  The definitions below are a shallow
embedding of `src/src/artisan_agent/artisan_agent.py` and
`src/src/sculptor_agent/sculptor_agent.py`: pure fragments become Lean
functions, the LangGraph workflow becomes an explicit step function on an
explicit state record, and the external collaborators (reasoning model,
vision model, Blender RPC) are supplied as oracle inputs.  Machine-level
details that the claims do not touch (image bytes, logging, prompt text)
are represented only as far as they influence control flow or the state
fields named by the claims.
-/

/- ---------------------------------------------------------------------
String helpers mirroring Python's `needle in hay` and `str.lower()`.
--------------------------------------------------------------------- -/

/-- Whether the first character list is a leading segment of the second. -/
def chPre : List Char → List Char → Bool
  | [], _ => true
  | _ :: _, [] => false
  | a :: as, b :: bs => a == b && chPre as bs

/-- Whether the first character list occurs contiguously inside the second. -/
def chSub : List Char → List Char → Bool
  | n, [] => chPre n []
  | n, h :: hs => chPre n (h :: hs) || chSub n hs

/-- Python's `needle in hay` on strings. -/
def containsSub (needle hay : String) : Bool :=
  chSub needle.toList hay.toList

/-- Python's `str.lower()` (ASCII case folding suffices for the scanned keywords). -/
def pyLower (s : String) : String :=
  String.mk (s.toList.map Char.toLower)

/-- Python's `s.startswith(p)`. -/
def startsWithStr (p s : String) : Bool :=
  chPre p.toList s.toList

/-- Python's `s[:200]` truncation used when recording error messages. -/
def take200 (s : String) : String :=
  String.mk (s.toList.take 200)

/-- Maximum of a list of naturals, 0 on the empty list (Python `max` is
only called on non-empty lists in the modelled code). -/
def listMax : List Nat → Nat
  | [] => 0
  | x :: xs => Nat.max x (listMax xs)

/-- The string `"can't see"` scanned by the occlusion detector
(built from a character code to keep the source ASCII-simple). -/
def cantSeePhrase : String :=
  "can" ++ String.singleton (Char.ofNat 39) ++ "t see"

/- ---------------------------------------------------------------------
RPC client: `BlenderMCPConnection.call_tool` in both agent variants.
--------------------------------------------------------------------- -/

/-- One content item of an MCP tool response (`result.content` elements):
a text block, an image block with a mime type and (already
base64-encoded) data, or anything else. -/
inductive McpContentItem where
  | text (s : String)
  | image (mime : String) (data : String)
  | other
  deriving Repr, DecidableEq

/-- Outcome of the underlying `mcp_session.call_tool` awaited by the
artisan agent's RPC client: either the call raises an exception with a
message, or it returns a content list. -/
inductive RpcAttempt where
  | raised (msg : String)
  | returned (content : List McpContentItem)
  deriving Repr, DecidableEq

/-- The dictionary returned by the artisan agent's
`BlenderMCPConnection.call_tool`. -/
structure ArtisanToolResult where
  success : Bool
  result : String
  toolName : String
  argsJson : String
  imageData : Option String
  deriving Repr, DecidableEq

/-- Folding step over `result.content` in the artisan `call_tool`:
text blocks are concatenated; an `image/*` block stores its data and
appends a `[Image captured: N bytes]` note. -/
def foldContent (acc : String × Option String) (item : McpContentItem) :
    String × Option String :=
  match item with
  | .text s => (acc.1 ++ s, acc.2)
  | .image mime data =>
      if startsWithStr "image/" mime then
        (acc.1 ++ "\n[Image captured: " ++ toString data.length ++ " bytes]", some data)
      else acc
  | .other => acc

/-- The artisan agent's `BlenderMCPConnection.call_tool`
(`src/src/artisan_agent/artisan_agent.py` lines 163-197): any exception
from the RPC call is caught and returned as a `success=False` dictionary
whose `result` field carries `"Error: "` plus the message. -/
def artisanCallTool (toolName argsJson : String) (attempt : RpcAttempt) :
    ArtisanToolResult :=
  match attempt with
  | .returned content =>
      let ri := content.foldl foldContent ("", none)
      { success := true, result := ri.1, toolName := toolName
        argsJson := argsJson, imageData := ri.2 }
  | .raised m =>
      { success := false, result := "Error: " ++ m, toolName := toolName
        argsJson := argsJson, imageData := none }

/-- Outcome of the underlying RPC call as seen by the sculptor agent's
`call_tool`: an exception, a response flagged `isError` (rendered by
Python's `str(result.content)`, supplied here as a string), or a normal
content list. -/
inductive SculptAttempt where
  | raised (msg : String)
  | errored (contentStr : String)
  | answered (content : List McpContentItem)
  deriving Repr, DecidableEq

/-- The dictionary returned by the sculptor agent's
`BlenderMCPConnection.call_tool` (either a `result` or an `error` key). -/
structure SculptToolResult where
  success : Bool
  result : Option String
  error : Option String
  deriving Repr, DecidableEq

/-- The sculptor agent's `BlenderMCPConnection.call_tool`
(`src/src/sculptor_agent/sculptor_agent.py` lines 287-313). -/
def sculptorCallTool (attempt : SculptAttempt) : SculptToolResult :=
  match attempt with
  | .raised m => { success := false, result := none, error := some m }
  | .errored cs => { success := false, result := none, error := some cs }
  | .answered content =>
      let t := content.foldl
        (fun acc i => match i with | .text s => acc ++ s | _ => acc) ""
      { success := true, result := some t, error := none }

/- ---------------------------------------------------------------------
Reasoning / Vision gateways: `invoke_with_retry` in both agent variants.
--------------------------------------------------------------------- -/

/-- Result of the retry wrapper: the model call succeeded, the final
error was re-raised, or the Python loop body never ran (`max_retries = 0`,
the function falls through and returns `None`). -/
inductive RetryOutcome where
  | ok (v : Nat)
  | raised (msg : String)
  | fellThrough
  deriving Repr, DecidableEq

/-- The artisan agent's rate-limit classification: `"rate_limit" in str(e).lower()`. -/
def artisanIsRateLimit (m : String) : Bool :=
  containsSub "rate_limit" (pyLower m)

/-- The sculptor agent's rate-limit classification:
`"rate_limit" in error_str or "429" in error_str` on the lowered message. -/
def sculptorIsRateLimit (m : String) : Bool :=
  containsSub "rate_limit" (pyLower m) || containsSub "429" (pyLower m)

/-- The retry loop shared by both `invoke_with_retry` variants.  `f` maps
the attempt index to that attempt's outcome; the returned list holds the
back-off waits performed (in seconds).  Fuel equals the remaining loop
iterations, so the recursion mirrors `for attempt in range(max_retries)`. -/
def retryGo (classify : String → Bool) (wait : Nat → Nat) (maxRetries : Nat)
    (f : Nat → Except String Nat) : Nat → Nat → RetryOutcome × List Nat
  | _, 0 => (.fellThrough, [])
  | attempt, fuel + 1 =>
      match f attempt with
      | .ok v => (.ok v, [])
      | .error m =>
          if classify m && attempt < maxRetries - 1 then
            let r := retryGo classify wait maxRetries f (attempt + 1) fuel
            (r.1, wait attempt :: r.2)
          else (.raised m, [])

/-- The artisan agent's `invoke_with_retry`
(`src/src/artisan_agent/artisan_agent.py` lines 39-50): default
`max_retries = 3`, wait `(2 ** attempt) * 5` seconds, rate-limit test
`"rate_limit"` only. -/
def invokeWithRetryArtisan (maxRetries : Nat) (f : Nat → Except String Nat) :
    RetryOutcome × List Nat :=
  retryGo artisanIsRateLimit (fun a => 2 ^ a * 5) maxRetries f 0 maxRetries

/-- The sculptor agent's `invoke_with_retry`
(`src/src/sculptor_agent/sculptor_agent.py` lines 44-63): wait
`base_wait * (2 ** attempt)` seconds, rate-limit test `"rate_limit"` or
`"429"`. -/
def invokeWithRetrySculptor (maxRetries baseWait : Nat)
    (f : Nat → Except String Nat) : RetryOutcome × List Nat :=
  retryGo sculptorIsRateLimit (fun a => baseWait * 2 ^ a) maxRetries f 0 maxRetries

/-- Default `RATE_LIMIT_MAX_RETRIES` of the sculptor agent (env default `"5"`). -/
def sculptorMaxRetriesDefault : Nat := 5

/-- Default `RATE_LIMIT_BASE_WAIT` of the sculptor agent (env default `"15"`). -/
def sculptorBaseWaitDefault : Nat := 15

/-- Modelled from the spec (section 4.6): the specification's rate-limit
classification, which additionally treats `overloaded` as a rate-limit
message.  Defined only to compare the claim's wording with the code. -/
def specRateLimitClassified (m : String) : Bool :=
  containsSub "rate_limit" (pyLower m) || containsSub "429" (pyLower m)
    || containsSub "overloaded" (pyLower m)

/- ---------------------------------------------------------------------
Agent state (`AgentState` TypedDict of the artisan agent), restricted to
the fields the workflow nodes read or write.  Fields that Python
initialises lazily with `state.get(key, default)` start at that default.
--------------------------------------------------------------------- -/

/-- One quality record appended to `state["quality_scores"]`. -/
structure QualityRec where
  step : Nat
  score : Nat
  needs : Bool
  attempt : Nat
  deriving Repr, DecidableEq

/-- One tool invocation of the step executor: the tool name the model
requested together with the `success` flag and `result` text the RPC
client returned for it. -/
structure ToolInvocation where
  toolName : String
  success : Bool
  result : String
  deriving Repr, DecidableEq

/-- The `AgentState` of the artisan agent. -/
structure AgentState where
  planningSteps : List String
  currentStep : Nat
  isComplete : Bool
  criticalError : Option String
  toolResults : List ToolInvocation
  executionErrors : List String
  feedbackHistory : List String
  visionFeedback : List String
  screenshotCount : Nat
  qualityScores : List QualityRec
  refinementAttempts : Nat
  maxRefinementsPerStep : Nat
  needsRefinement : Bool
  refinementFeedback : Option String
  enableRefinement : Bool
  completedSteps : List String
  deriving Repr, DecidableEq

/-- The initial state built by `run` (fields absent from the Python
dictionary start at the default their first `state.get` supplies;
`max_refinements_per_step` is fixed on first quality assessment from the
`REFINEMENT_STEPS` environment value, supplied here as `cap`). -/
def initialState (enable : Bool) (cap : Nat) : AgentState :=
  { planningSteps := [], currentStep := 0, isComplete := false
    criticalError := none, toolResults := [], executionErrors := []
    feedbackHistory := [], visionFeedback := [], screenshotCount := 0
    qualityScores := [], refinementAttempts := 0
    maxRefinementsPerStep := cap, needsRefinement := false
    refinementFeedback := none, enableRefinement := enable
    completedSteps := [] }

/- ---------------------------------------------------------------------
Quality Gate: `_assess_quality_node`, `_refine_step_node`,
`_should_refine` (artisan agent lines 897-1078).
--------------------------------------------------------------------- -/

/-- The most recent vision feedback:
`state.get("vision_feedback", [])[-1] if state.get("vision_feedback") else ""`
with Python truthiness (an empty final string also reads as `""`). -/
def lastFeedback (s : AgentState) : String :=
  (s.visionFeedback.getLast?).getD ""

/-- The occlusion keyword scan of `_assess_quality_node` (lines 938-947)
over the lowered feedback text. -/
def occlusionDetected (fb : String) : Bool :=
  let l := pyLower fb
  containsSub "hidden" l || containsSub "occluded" l || containsSub "obscured" l
    || containsSub "blocked" l || containsSub "overshadow" l
    || (containsSub "behind" l && containsSub "object" l)
    || containsSub "not visible" l
    || (containsSub cantSeePhrase l || containsSub "cannot see" l)

/-- The quality threshold of `_assess_quality_node`: steps with
`current_step < 5` need a score of at least 7 (of 10), later steps at
least 6. -/
def refinementThreshold (currentStep : Nat) : Nat :=
  if currentStep < 5 then 7 else 6

/-- The quality gate `_assess_quality_node` (lines 897-991).  `score` is
the quality score the node extracts from the feedback text with its
best-effort regex (extraction is heuristic and abstracted as an input; a
feedback with no parseable rating yields the default 5).  When the
feedback list is empty or its last entry is the empty string the node
skips assessment and accepts without touching the counter; otherwise it
compares the score with the position-dependent threshold, scans for
occlusion hazards, forces accept once the refinement cap is reached, and
resets the counter to 0 on accept. -/
def assessQuality (score : Nat) (s : AgentState) : AgentState :=
  let fb := lastFeedback s
  if fb = "" then
    { s with needsRefinement := false }
  else
    let occl := occlusionDetected fb
    let rawNeeds := score < refinementThreshold s.currentStep || occl
    let needs :=
      if s.maxRefinementsPerStep ≤ s.refinementAttempts then false else rawNeeds
    let rec0 : QualityRec :=
      { step := s.currentStep, score := score, needs := needs,
        attempt := s.refinementAttempts }
    let s1 := { s with qualityScores := s.qualityScores ++ [rec0] }
    if needs then
      { s1 with needsRefinement := true, refinementFeedback := some fb }
    else
      { s1 with
        needsRefinement := false
        refinementFeedback := none
        refinementAttempts := 0 }

/-- The refinement node `_refine_step_node` (lines 993-1068): increments
the per-step attempt counter; the refinement tool calls it issues change
the Blender scene but no modelled state field. -/
def refineStepNode (s : AgentState) : AgentState :=
  { s with refinementAttempts := s.refinementAttempts + 1 }

/-- The router `_should_refine` (lines 1070-1078). -/
def shouldRefine (s : AgentState) : String :=
  if s.enableRefinement = false then "continue"
  else if s.needsRefinement then "refine"
  else "continue"

/-- Message of the `AttributeError` raised at line 1084 (paraphrased
without CPython's quoting): `self.logger` is dereferenced there, and
`logger` is never assigned anywhere on `ArtisanAgent` — every other
method uses a local `logger = logging.getLogger(__name__)`. -/
def attributeErrorMsg : String :=
  "AttributeError: ArtisanAgent object has no attribute logger"

/-- The router `_should_continue` (lines 1080-1086) as the source
executes it: when `critical_error` is truthy (a non-empty message) the
body evaluates `self.logger.critical(...)` first, and since `logger` is
never assigned on `ArtisanAgent` this raises `AttributeError` instead of
returning; otherwise the router returns complete or continue according
to `is_complete`. -/
def shouldContinueNode (s : AgentState) : Except String String :=
  if (s.criticalError.getD "") ≠ "" then .error attributeErrorMsg
  else if s.isComplete then .ok "complete"
  else .ok "continue"

/-- The value `_should_continue` is written to return (lines 1083-1086:
complete on a critical error or on completion, continue otherwise),
ignoring the `self.logger` slip that in fact aborts the critical-error
branch (see `shouldContinueNode`).  The workflow-graph abstraction
below routes with this total function; on the critical-error branch it
therefore continues to the complete node where the real run aborts, so
the abstraction's reachable configurations are a superset of the real
run's prefixes — sound for the invariant claims proved over it. -/
def shouldContinue (s : AgentState) : String :=
  if s.criticalError.isSome then "complete"
  else if s.isComplete then "complete"
  else "continue"

/- ---------------------------------------------------------------------
Step Executor: `_execute_step_node` (lines 607-747).
--------------------------------------------------------------------- -/

/-- The error classification of `_execute_step_node` (lines 706-712):
`success=False`, or the lowered result text containing `error`, `failed`
or `not found`. -/
def invocationHasError (c : ToolInvocation) : Bool :=
  !c.success || containsSub "error" (pyLower c.result)
    || containsSub "failed" (pyLower c.result)
    || containsSub "not found" (pyLower c.result)

/-- The fatal-pattern scan of `_execute_step_node` (lines 727-728) over
the lowered result text. -/
def fatalTextMatch (c : ToolInvocation) : Bool :=
  containsSub "not found" (pyLower c.result)
    || containsSub "no attribute" (pyLower c.result)
    || containsSub "keyerror" (pyLower c.result)

/-- Whether an invocation triggers the critical fail-fast halt of
`_execute_step_node` (lines 726-733): the `execute_blender_code` tool, a
foundational step (`current_step <= 5`), an error-classified outcome and
a fatal-pattern match. -/
def isFatalInvocation (currentStep : Nat) (c : ToolInvocation) : Bool :=
  c.toolName == "execute_blender_code" && decide (currentStep ≤ 5)
    && invocationHasError c && fatalTextMatch c

/-- Result of running one step's tool invocations in order: the
invocations actually executed, the `execution_errors` entries appended,
and the critical error, if any. -/
structure ExecOutcome where
  issued : List ToolInvocation
  newErrors : List String
  critical : Option String
  deriving Repr, DecidableEq

/-- The `execution_errors` entry recorded for an error-classified
invocation: `f"Step {state['current_step']}: {error_msg}"` with the
result text truncated to 200 characters. -/
def errorEntry (currentStep : Nat) (c : ToolInvocation) : String :=
  "Step " ++ toString currentStep ++ ": " ++ take200 c.result

/-- The tool-invocation loop of `_execute_step_node` (lines 686-735):
invocations run strictly in order; error-classified outcomes append an
`execution_errors` entry; a fatal invocation sets `critical_error` and
stops the loop immediately (the remaining invocations are not executed). -/
def processToolCalls (currentStep : Nat) :
    List ToolInvocation → ExecOutcome
  | [] => { issued := [], newErrors := [], critical := none }
  | c :: rest =>
      if invocationHasError c then
        if isFatalInvocation currentStep c then
          { issued := [c], newErrors := [errorEntry currentStep c],
            critical := some ("Step " ++ toString currentStep ++ " failed: "
              ++ take200 c.result) }
        else
          let o := processToolCalls currentStep rest
          { issued := c :: o.issued,
            newErrors := errorEntry currentStep c :: o.newErrors,
            critical := o.critical }
      else
        let o := processToolCalls currentStep rest
        { issued := c :: o.issued, newErrors := o.newErrors,
          critical := o.critical }

/-- The node `_execute_step_node` (lines 607-747).  `cancelled` is the
value of the cancellation predicate polled at entry; `calls` pairs each
tool invocation the reasoning model requested with the outcome the RPC
client returns for it.  Returns the updated state together with the
invocations actually executed.  On the critical early return the local
`tool_results` list is discarded (`state["tool_results"]` is only
extended at the end) and `current_step` is not advanced, while the
`execution_errors` entries, appended directly to the state inside the
loop, are retained. -/
def executeStepNode (cancelled : Bool) (calls : List ToolInvocation)
    (s : AgentState) : AgentState × List ToolInvocation :=
  if cancelled then
    ({ s with
       isComplete := true
       criticalError := some "Task cancelled by user" }, [])
  else if s.planningSteps.length ≤ s.currentStep then
    ({ s with isComplete := true }, [])
  else
    let o := processToolCalls s.currentStep calls
    match o.critical with
    | some e =>
        ({ s with
           executionErrors := s.executionErrors ++ o.newErrors
           criticalError := some e }, o.issued)
    | none =>
        ({ s with
           executionErrors := s.executionErrors ++ o.newErrors
           toolResults := s.toolResults ++ o.issued
           currentStep := s.currentStep + 1 }, o.issued)

/- ---------------------------------------------------------------------
Planner: the resume skip logic of `_plan_node` (lines 386-605).
--------------------------------------------------------------------- -/

/-- The fallback plan used when no steps parse from the model response
(lines 479-485). -/
def fallbackPlan : List String :=
  ["Clear default scene and set up environment",
   "Create main geometry based on requirements",
   "Add details and refinements",
   "Apply materials and lighting",
   "Final adjustments and capture screenshot"]

/-- Parsing of the completed-step numbers (line 563):
`[int(n) - 1 for n in numbers if 0 <= int(n) - 1 < len(steps)]`. -/
def parseCompletedIndices (numbers : List Nat) (total : Nat) : List Nat :=
  numbers.filterMap (fun n => if 1 ≤ n ∧ n - 1 < total then some (n - 1) else none)

/-- The skip-cap of `_plan_node` (lines 565-569): at most
`max(1, int(len(steps) * 0.3))` detected steps are kept (for every list
length Python's `int(n * 0.3)` equals `3 * n / 10` in natural division). -/
def planSkip (steps : List String) (numbers : List Nat) : List Nat :=
  let completed := parseCompletedIndices numbers steps.length
  let maxSkip := max 1 (3 * steps.length / 10)
  if maxSkip < completed.length then completed.take maxSkip else completed

/- ---------------------------------------------------------------------
The LangGraph workflow (`_create_graph`, lines 302-350) as an explicit
step function.  External collaborators are supplied per iteration by an
oracle record.
--------------------------------------------------------------------- -/

/-- Per-iteration inputs from the external collaborators: the
cancellation predicate, the reasoning model's parsed plan and tool-call
requests paired with their RPC outcomes, the screenshot/vision results,
the quality score extracted from the vision text, and the scene-analysis
data driving resume detection. -/
structure OracleStep where
  cancelled : Bool
  toolCalls : List ToolInvocation
  screenshotOk : Bool
  visionOk : Bool
  visionText : String
  sceneInfo : String
  score : Nat
  parsedSteps : List String
  objectsPresent : Bool
  numObjects : Nat
  detectedNumbers : List Nat
  deriving Repr, DecidableEq

/-- A neutral oracle record (no cancellation, no tool calls, successful
capture with empty feedback, the default score 5, an empty plan). -/
def defaultOracle : OracleStep :=
  { cancelled := false, toolCalls := [], screenshotOk := true
    visionOk := true, visionText := "", sceneInfo := "", score := 5
    parsedSteps := [], objectsPresent := false, numObjects := 0
    detectedNumbers := [] }

/-- The step list `_plan_node` adopts: the parsed numbered lines, or the
fixed fallback plan when nothing parses. -/
def planSteps (o : OracleStep) : List String :=
  if o.parsedSteps = [] then fallbackPlan else o.parsedSteps

/-- The fresh-start outcome of `_plan_node`: no completed steps,
`current_step = 0`. -/
def planFresh (o : OracleStep) (s : AgentState) : AgentState :=
  { s with completedSteps := [], currentStep := 0, planningSteps := planSteps o }

/-- The planning node `_plan_node` restricted to its state effect: store
the parsed plan (or the fallback plan), and, when the scene holds more
than 3 objects, skip the completed steps the detection reports — capped
at 30 percent of the plan — setting `current_step` one past the highest
skipped index. -/
def planNode (o : OracleStep) (s : AgentState) : AgentState :=
  if o.objectsPresent then
    if o.numObjects ≤ 3 then planFresh o s
    else if planSkip (planSteps o) o.detectedNumbers = [] then planFresh o s
    else
      { s with
        completedSteps :=
          (planSkip (planSteps o) o.detectedNumbers).map
            (fun i => (planSteps o).getD i "")
        currentStep := listMax (planSkip (planSteps o) o.detectedNumbers) + 1
        planningSteps := planSteps o }
  else planFresh o s

/-- The feedback node `_capture_feedback_node` (lines 749-856): on a
successful screenshot the counter advances, the vision feedback (when
the vision call succeeds) is appended, and a scene summary joins the
feedback history. -/
def captureFeedbackNode (o : OracleStep) (s : AgentState) : AgentState :=
  if o.screenshotOk then
    let s1 := { s with screenshotCount := s.screenshotCount + 1 }
    let s2 := if o.visionOk then
        { s1 with visionFeedback := s1.visionFeedback ++ [o.visionText] }
      else s1
    { s2 with feedbackHistory := s2.feedbackHistory ++
        ["Step " ++ toString s.currentStep ++ " - Scene: " ++ o.sceneInfo] }
  else s

/-- The node `_evaluate_progress_node` (lines 858-895): marks the task
complete once every planned step has run. -/
def evaluateProgressNode (s : AgentState) : AgentState :=
  if s.planningSteps.length ≤ s.currentStep then { s with isComplete := true }
  else s

/-- The workflow nodes of `_create_graph`. -/
inductive Node where
  | analyzeScene
  | planning
  | executeStep
  | captureFeedback
  | assessStep
  | refineStep
  | evaluateProgress
  | completed
  | ended
  deriving Repr, DecidableEq

/-- The state effect of one node (the scene-analysis node only records
scene data consumed by the planner, which the oracle supplies directly). -/
def nodeEffect (o : OracleStep) : Node → AgentState → AgentState
  | .analyzeScene, s => s
  | .planning, s => planNode o s
  | .executeStep, s => (executeStepNode o.cancelled o.toolCalls s).1
  | .captureFeedback, s => captureFeedbackNode o s
  | .assessStep, s => assessQuality o.score s
  | .refineStep, s => refineStepNode s
  | .evaluateProgress, s => evaluateProgressNode s
  | .completed, s => s
  | .ended, s => s

/-- The edges of `_create_graph` (lines 316-348); conditional edges use
the routers on the state the node just produced. -/
def nextNode : Node → AgentState → Node
  | .analyzeScene, _ => .planning
  | .planning, _ => .executeStep
  | .executeStep, _ => .captureFeedback
  | .captureFeedback, _ => .assessStep
  | .assessStep, s => if shouldRefine s = "refine" then .refineStep
      else .evaluateProgress
  | .refineStep, _ => .captureFeedback
  | .evaluateProgress, s => if shouldContinue s = "complete" then .completed
      else .executeStep
  | .completed, _ => .ended
  | .ended, _ => .ended

/-- One workflow transition: apply the current node's effect, then follow
its (possibly conditional) outgoing edge. -/
def stepConfig (o : OracleStep) (c : Node × AgentState) : Node × AgentState :=
  let s := nodeEffect o c.1 c.2
  (nextNode c.1 s, s)

/-- The workflow run after `k` transitions from the entry point, with the
iteration's external inputs drawn from `oracle`. -/
def runFrom (enable : Bool) (cap : Nat) (oracle : Nat → OracleStep) :
    Nat → Node × AgentState
  | 0 => (.analyzeScene, initialState enable cap)
  | k + 1 => stepConfig (oracle k) (runFrom enable cap oracle k)

/- ---------------------------------------------------------------------
Orchestrator entry point: `run` (lines 1106-1259), from the graph
invocation onward.
--------------------------------------------------------------------- -/

/-- Outcome of `self.graph.ainvoke`: the workflow reaches its end node
with a final state; the recursion (iteration) limit is hit and the
memory checkpointer holds the checkpointed states, most recent first
(`checkpoints[0]`); or the invocation raises some other exception —
such as the `AttributeError` from `_should_continue` on a critical-error
state — which `run` does not catch. -/
inductive GraphOutcome where
  | finished (s : AgentState)
  | recursionLimit (checkpoints : List AgentState)
  | raised (msg : String)
  deriving Repr, DecidableEq

/-- The result dictionary assembled by `run` (lines 1210-1256).  `error`
models the `"error"` key, present only in the fallback branch for a
completely unrecoverable state. -/
structure RunResults where
  stepsExecuted : Nat
  totalSteps : Nat
  screenshotsCaptured : Nat
  success : Bool
  partialCompletion : Bool
  canResume : Bool
  toolResults : List ToolInvocation
  recursionLimitReached : Bool
  error : Option String
  deriving Repr, DecidableEq

/-- The tail of `run` (lines 1179-1259): a normal graph completion is
reported directly; a `GraphRecursionError` is caught — never re-raised —
and the most recent checkpoint state (or, with no checkpoint, the
initial state unmodified) is reported with
`partial_completion=True, can_resume=True`.  The `except` clause catches
only `GraphRecursionError`, so any other exception raised inside the
graph propagates to `run`'s caller (`Except.error`). -/
def runModel (initial : AgentState) (outcome : GraphOutcome) :
    Except String RunResults :=
  match outcome with
  | .raised m => .error m
  | .finished fs =>
      .ok { stepsExecuted := fs.currentStep
            totalSteps := fs.planningSteps.length
            screenshotsCaptured := fs.screenshotCount
            success := fs.isComplete
            partialCompletion := false
            canResume := !fs.isComplete
            toolResults := fs.toolResults
            recursionLimitReached := false
            error := none }
  | .recursionLimit cps =>
      let fs := cps.head?.getD initial
      .ok { stepsExecuted := fs.currentStep
            totalSteps := fs.planningSteps.length
            screenshotsCaptured := fs.screenshotCount
            success := false
            partialCompletion := true
            canResume := true
            toolResults := fs.toolResults
            recursionLimitReached := true
            error := none }

/- ---------------------------------------------------------------------
Theorems.
--------------------------------------------------------------------- -/

/-- Claim C9: the RPC clients' `call_tool` never raises to the caller —
both variants are total functions here, and an exception `m` from the
underlying RPC call surfaces as a `success=False` value with the message
carried in the artisan `result` field (prefixed `"Error: "`) and the
sculptor `error` field. -/
theorem C9_call_tool_never_raises :
    ∀ (toolName argsJson m : String),
      (artisanCallTool toolName argsJson (.raised m)).success = false ∧
      (artisanCallTool toolName argsJson (.raised m)).result = "Error: " ++ m ∧
      (sculptorCallTool (.raised m)).success = false ∧
      (sculptorCallTool (.raised m)).error = some m := by
  intro toolName argsJson m
  exact ⟨rfl, rfl, rfl, rfl⟩

/-- Claim C2: when the iteration cap is hit, `run` does not raise — it
returns (`Except.ok`) a result with `partial_completion=True` and
`can_resume=True` assembled from the most recent checkpoint state, whose
`current_step` gives `steps_executed`; with no checkpoint available the
result is assembled from the initial state unmodified. -/
theorem C2_iteration_cap_returns_partial :
    ∀ (initial : AgentState) (cps : List AgentState),
      ∃ r : RunResults, runModel initial (.recursionLimit cps) = .ok r ∧
        r.partialCompletion = true ∧ r.canResume = true ∧
        r.stepsExecuted = (cps.head?.getD initial).currentStep ∧
        (cps = [] → r.stepsExecuted = initial.currentStep ∧
          r.totalSteps = initial.planningSteps.length ∧
          r.screenshotsCaptured = initial.screenshotCount ∧
          r.toolResults = initial.toolResults) := by
  intro initial cps
  refine ⟨_, rfl, rfl, rfl, rfl, ?_⟩
  intro h
  subst h
  exact ⟨rfl, rfl, rfl, rfl⟩

/-- Witness for C2 at a concrete interrupted run with no checkpoint. -/
theorem C2_iteration_cap_returns_partial_witness :
    ∃ r : RunResults,
      runModel (initialState true 2) (.recursionLimit []) = .ok r ∧
      r.partialCompletion = true ∧ r.canResume = true ∧
      r.stepsExecuted = (([] : List AgentState).head?.getD (initialState true 2)).currentStep ∧
      (([] : List AgentState) = [] → r.stepsExecuted = (initialState true 2).currentStep ∧
        r.totalSteps = (initialState true 2).planningSteps.length ∧
        r.screenshotsCaptured = (initialState true 2).screenshotCount ∧
        r.toolResults = (initialState true 2).toolResults) :=
  C2_iteration_cap_returns_partial (initialState true 2) []

/-- A workflow state halted by the critical fail-fast rule at a
foundational step: the state `_should_continue` is routed on after
`execute_blender_code` returned an `Object not found` error at step 3. -/
def cexFinalC6 : AgentState :=
  { initialState true 2 with
    planningSteps := fallbackPlan
    currentStep := 3
    criticalError := some "Step 3 failed: Object not found" }

/-- Claim C6 names a code bug: on the state halted with `critical_error`
set, the router `_should_continue` dereferences the never-assigned
`self.logger` and raises `AttributeError` (line 1084) instead of
returning `"complete"`; the exception is not a `GraphRecursionError`, so
`run` re-raises it to its caller rather than returning the unsuccessful
result the claim (with the spec's section 7b, and the code's own
intent — `return "complete"  # End workflow on critical error`)
describes.  The intended routing value is `"complete"`, as
`shouldContinue` shows. -/
theorem C6_router_crash_on_critical_error :
    cexFinalC6.criticalError = some "Step 3 failed: Object not found" ∧
    cexFinalC6.isComplete = false ∧
    shouldContinueNode cexFinalC6 = .error attributeErrorMsg ∧
    runModel (initialState true 2) (.raised attributeErrorMsg) =
      .error attributeErrorMsg ∧
    shouldContinue cexFinalC6 = "complete" := by
  exact ⟨rfl, rfl, rfl, rfl, rfl⟩

/-- Length bound of the planner's skip cap: never more than
`max(1, int(0.3 * len(steps)))` detected steps survive. -/
theorem planSkip_length_le (steps : List String) (numbers : List Nat) :
    (planSkip steps numbers).length ≤ max 1 (3 * steps.length / 10) := by
  unfold planSkip
  by_cases h : max 1 (3 * steps.length / 10) <
      (parseCompletedIndices numbers steps.length).length
  · rw [if_pos h, List.length_take]
    exact min_le_left _ _
  · rw [if_neg h]
    exact Nat.le_of_not_lt h

/-- The oracle record of the concrete resume scenario refuting C7: a
2-step plan with one detected completed step. -/
def cexOracleC7 : OracleStep :=
  { defaultOracle with
    parsedSteps := ["a", "b"]
    objectsPresent := true
    numObjects := 4
    detectedNumbers := [1] }

/-- Counterexample for claim C7: with a 2-step plan the skip cap
`max(1, int(0.3 * 2)) = 1` still allows skipping one step, which is 50
percent of the plan — more than the claimed 30 percent bound. -/
theorem C7_small_plan_exceeds_thirty_percent :
    planSkip ["a", "b"] [1] = [0] ∧
    ¬ (10 * (planSkip ["a", "b"] [1]).length ≤ 3 * (["a", "b"] : List String).length) ∧
    (planNode cexOracleC7 (initialState true 2)).completedSteps = ["a"] ∧
    (planNode cexOracleC7 (initialState true 2)).currentStep = 1 := by
  refine ⟨rfl, by decide, rfl, rfl⟩

/-- Claim C7 as amended: during resume the planner skips at most
`max(1, int(0.3 * n))` steps of an `n`-step plan — which is within 30
percent of `n` whenever `n ≥ 4`, though one step may always be skipped —
and `current_step` is set one past the highest skipped index. -/
theorem C7_skip_cap_and_resume_pointer :
    ∀ (o : OracleStep) (s : AgentState) (skipped : List Nat),
      skipped = planSkip (planSteps o) o.detectedNumbers →
      o.objectsPresent = true → 3 < o.numObjects →
      skipped.length ≤ max 1 (3 * (planSteps o).length / 10) ∧
      (4 ≤ (planSteps o).length →
        10 * skipped.length ≤ 3 * (planSteps o).length) ∧
      (skipped ≠ [] →
        (planNode o s).currentStep = listMax skipped + 1 ∧
        (planNode o s).completedSteps.length = skipped.length ∧
        (planNode o s).planningSteps = planSteps o) := by
  intro o s skipped hskip hObj hNum
  have hlen : skipped.length ≤ max 1 (3 * (planSteps o).length / 10) := by
    rw [hskip]; exact planSkip_length_le (planSteps o) o.detectedNumbers
  refine ⟨hlen, ?_, ?_⟩
  · intro h4
    have h1 : 1 ≤ 3 * (planSteps o).length / 10 := by
      have h12 : 12 ≤ 3 * (planSteps o).length := by omega
      omega
    have hmax : max 1 (3 * (planSteps o).length / 10) =
        3 * (planSteps o).length / 10 := Nat.max_eq_right h1
    have hq : 3 * (planSteps o).length / 10 * 10 ≤ 3 * (planSteps o).length :=
      Nat.div_mul_le_self _ _
    calc 10 * skipped.length ≤ 10 * (3 * (planSteps o).length / 10) := by
          refine Nat.mul_le_mul_left 10 ?_
          rw [hmax] at hlen; exact hlen
      _ = 3 * (planSteps o).length / 10 * 10 := Nat.mul_comm _ _
      _ ≤ 3 * (planSteps o).length := hq
  · intro hne
    have hn3 : ¬ o.numObjects ≤ 3 := by omega
    have hne2 : ¬ planSkip (planSteps o) o.detectedNumbers = [] := by
      rw [← hskip]; exact hne
    unfold planNode
    rw [hObj]
    rw [if_pos rfl, if_neg hn3, if_neg hne2, hskip]
    exact ⟨rfl, by simp, rfl⟩

/-- The oracle record of the C7 witness scenario: a resume over the
5-step fallback plan with one detected completed step. -/
def witOracleC7 : OracleStep :=
  { defaultOracle with objectsPresent := true, numObjects := 4, detectedNumbers := [1] }

/-- Witness for C7 on the 5-step fallback plan with one detected step. -/
theorem C7_skip_cap_and_resume_pointer_witness :
    (planSkip (planSteps witOracleC7) witOracleC7.detectedNumbers).length ≤
      max 1 (3 * (planSteps witOracleC7).length / 10) ∧
    (4 ≤ (planSteps witOracleC7).length →
      10 * (planSkip (planSteps witOracleC7) witOracleC7.detectedNumbers).length ≤
        3 * (planSteps witOracleC7).length) ∧
    ((planSkip (planSteps witOracleC7) witOracleC7.detectedNumbers) ≠ [] →
      (planNode witOracleC7 (initialState true 2)).currentStep =
        listMax (planSkip (planSteps witOracleC7) witOracleC7.detectedNumbers) + 1 ∧
      (planNode witOracleC7 (initialState true 2)).completedSteps.length =
        (planSkip (planSteps witOracleC7) witOracleC7.detectedNumbers).length ∧
      (planNode witOracleC7 (initialState true 2)).planningSteps = planSteps witOracleC7) :=
  C7_skip_cap_and_resume_pointer witOracleC7 (initialState true 2)
    (planSkip (planSteps witOracleC7) witOracleC7.detectedNumbers) rfl rfl (by decide)

/-- Claim C8: invoking the execute node on a state whose `current_step`
equals the plan length immediately yields `is_complete=True`, leaves
`tool_results` unchanged and issues no tool call, whatever invocations
the model would have requested and whatever the cancellation predicate
returns. -/
theorem C8_execute_idempotent :
    ∀ (cancelled : Bool) (calls : List ToolInvocation) (s : AgentState),
      s.currentStep = s.planningSteps.length →
      (executeStepNode cancelled calls s).1.isComplete = true ∧
      (executeStepNode cancelled calls s).1.toolResults = s.toolResults ∧
      (executeStepNode cancelled calls s).2 = [] := by
  intro cancelled calls s h
  unfold executeStepNode
  cases cancelled with
  | true => exact ⟨rfl, rfl, rfl⟩
  | false =>
      have hle : s.planningSteps.length ≤ s.currentStep := by omega
      simp [hle]

/-- Witness for C8: a finished 1-step task with a pending (never issued)
fatal invocation. -/
theorem C8_execute_idempotent_witness :
    ((executeStepNode false
        [{ toolName := "execute_blender_code", success := false, result := "Error: KeyError" }]
        { initialState true 2 with planningSteps := ["build the model"], currentStep := 1 }).1.isComplete = true ∧
     (executeStepNode false
        [{ toolName := "execute_blender_code", success := false, result := "Error: KeyError" }]
        { initialState true 2 with planningSteps := ["build the model"], currentStep := 1 }).1.toolResults =
       ({ initialState true 2 with planningSteps := ["build the model"], currentStep := 1 } : AgentState).toolResults ∧
     (executeStepNode false
        [{ toolName := "execute_blender_code", success := false, result := "Error: KeyError" }]
        { initialState true 2 with planningSteps := ["build the model"], currentStep := 1 }).2 = []) :=
  C8_execute_idempotent false
    [{ toolName := "execute_blender_code", success := false, result := "Error: KeyError" }]
    { initialState true 2 with planningSteps := ["build the model"], currentStep := 1 } rfl

/-- One unfolding of the retry loop on a persistently failing,
rate-limit-classified call: wait, then retry with one less attempt
available. -/
theorem retryGo_const_step (classify : String → Bool) (wait : Nat → Nat)
    (m : String) (hm : classify m = true) (maxR fuel attempt : Nat)
    (ha : attempt < maxR - 1) :
    retryGo classify wait maxR (fun _ => .error m) attempt (fuel + 1) =
      ((retryGo classify wait maxR (fun _ => .error m) (attempt + 1) fuel).1,
       wait attempt ::
         (retryGo classify wait maxR (fun _ => .error m) (attempt + 1) fuel).2) := by
  simp [retryGo, hm, ha]

/-- The final iteration of the retry loop re-raises the error. -/
theorem retryGo_const_last (classify : String → Bool) (wait : Nat → Nat)
    (m : String) (maxR fuel attempt : Nat) (ha : ¬ attempt < maxR - 1) :
    retryGo classify wait maxR (fun _ => .error m) attempt (fuel + 1) =
      (.raised m, []) := by
  simp [retryGo, ha]

/-- A persistently failing, rate-limit-classified call exhausts all
retries: the loop performs the exponential-backoff waits and then
re-raises the final error. -/
theorem retryGo_const_run (classify : String → Bool) (wait : Nat → Nat)
    (m : String) (hm : classify m = true) (maxR : Nat) :
    ∀ (fuel attempt : Nat), 1 ≤ fuel → maxR ≤ attempt + fuel →
      retryGo classify wait maxR (fun _ => .error m) attempt fuel =
        (.raised m,
         (List.range (maxR - 1 - attempt)).map (fun i => wait (attempt + i))) := by
  intro fuel
  induction fuel with
  | zero => intro attempt h1 _; omega
  | succ f ih =>
      intro attempt _ hcap
      by_cases ha : attempt < maxR - 1
      · have hf : 1 ≤ f := by omega
        have hcap2 : maxR ≤ attempt + 1 + f := by omega
        rw [retryGo_const_step classify wait m hm maxR f attempt ha,
          ih (attempt + 1) hf hcap2]
        have hd : maxR - 1 - attempt = (maxR - 1 - (attempt + 1)) + 1 := by omega
        rw [hd, List.range_succ_eq_map, List.map_cons, List.map_map]
        have hfun : ((fun i => wait (attempt + i)) ∘ Nat.succ) =
            (fun i => wait (attempt + 1 + i)) := by
          funext i
          exact congrArg wait (by omega)
        rw [hfun]
        simp
      · rw [retryGo_const_last classify wait m maxR f attempt ha]
        have hz : maxR - 1 - attempt = 0 := by omega
        simp [hz]

/-- Claim C5 as amended: the sculptor gateway classifies only
`rate_limit` and `429` as rate limits (default `max_retries = 5`, wait
`15 * 2 ** attempt` seconds); the artisan gateway classifies only
`rate_limit` (default `max_retries = 3`, wait `5 * 2 ** attempt`
seconds).  A classified error is retried with those waits until the
retries are exhausted and then propagated; an unclassified error — which
includes `overloaded` — propagates immediately with no wait, and a
successful call returns at once. -/
theorem C5_retry_policy :
    ∀ (m : String) (v : Nat) (f : Nat → Except String Nat),
      (sculptorIsRateLimit m = false → f 0 = .error m →
        invokeWithRetrySculptor sculptorMaxRetriesDefault sculptorBaseWaitDefault f =
          (.raised m, [])) ∧
      (sculptorIsRateLimit m = true →
        invokeWithRetrySculptor sculptorMaxRetriesDefault sculptorBaseWaitDefault
            (fun _ => .error m) =
          (.raised m, [15, 30, 60, 120])) ∧
      (artisanIsRateLimit m = false → f 0 = .error m →
        invokeWithRetryArtisan 3 f = (.raised m, [])) ∧
      (artisanIsRateLimit m = true →
        invokeWithRetryArtisan 3 (fun _ => .error m) = (.raised m, [5, 10])) ∧
      (f 0 = .ok v →
        invokeWithRetrySculptor sculptorMaxRetriesDefault sculptorBaseWaitDefault f =
            (.ok v, []) ∧
          invokeWithRetryArtisan 3 f = (.ok v, [])) := by
  intro m v f
  refine ⟨?_, ?_, ?_, ?_, ?_⟩
  · intro hm hf
    show retryGo sculptorIsRateLimit (fun a => sculptorBaseWaitDefault * 2 ^ a)
      sculptorMaxRetriesDefault f 0 (4 + 1) = (.raised m, [])
    simp [retryGo, hf, hm]
  · intro hm
    have h := retryGo_const_run sculptorIsRateLimit
      (fun a => sculptorBaseWaitDefault * 2 ^ a) m hm
      sculptorMaxRetriesDefault 5 0 (by decide) (by decide)
    exact h.trans (by rfl)
  · intro hm hf
    show retryGo artisanIsRateLimit (fun a => 2 ^ a * 5) 3 f 0 (2 + 1) =
      (.raised m, [])
    simp [retryGo, hf, hm]
  · intro hm
    have h := retryGo_const_run artisanIsRateLimit (fun a => 2 ^ a * 5) m hm
      3 3 0 (by decide) (by decide)
    exact h.trans (by rfl)
  · intro hf
    constructor
    · show retryGo sculptorIsRateLimit (fun a => sculptorBaseWaitDefault * 2 ^ a)
        sculptorMaxRetriesDefault f 0 (4 + 1) = (.ok v, [])
      simp [retryGo, hf]
    · show retryGo artisanIsRateLimit (fun a => 2 ^ a * 5) 3 f 0 (2 + 1) =
        (.ok v, [])
      simp [retryGo, hf]

/-- Witness for C5: a non-rate-limit error propagates with no wait, and a
persistent `rate_limit` error runs the full back-off schedule of each
gateway. -/
theorem C5_retry_policy_witness :
    invokeWithRetrySculptor sculptorMaxRetriesDefault sculptorBaseWaitDefault
        (fun _ => .error "boom") = (.raised "boom", []) ∧
    invokeWithRetrySculptor sculptorMaxRetriesDefault sculptorBaseWaitDefault
        (fun _ => .error "rate_limit hit") = (.raised "rate_limit hit", [15, 30, 60, 120]) ∧
    invokeWithRetryArtisan 3 (fun _ => .error "rate_limit hit") =
      (.raised "rate_limit hit", [5, 10]) ∧
    invokeWithRetryArtisan 3 (fun _ => .ok 7) = (.ok 7, []) :=
  ⟨(C5_retry_policy "boom" 0 (fun _ => .error "boom")).1 (by decide) rfl,
   (C5_retry_policy "rate_limit hit" 0 (fun _ => .error "rate_limit hit")).2.1 (by decide),
   (C5_retry_policy "rate_limit hit" 0 (fun _ => .error "rate_limit hit")).2.2.2.1 (by decide),
   ((C5_retry_policy "rate_limit hit" 7 (fun _ => .ok 7)).2.2.2.2 rfl).2⟩

/-- Counterexample for claim C5: an `overloaded` error is rate-limit
classified by the claim but by neither gateway — both propagate it
immediately, with no wait and no retry, instead of backing off
`base_wait * 2 ** attempt` up to `max_retries` times. -/
theorem C5_overloaded_not_retried :
    specRateLimitClassified "overloaded" = true ∧
    sculptorIsRateLimit "overloaded" = false ∧
    artisanIsRateLimit "overloaded" = false ∧
    invokeWithRetrySculptor sculptorMaxRetriesDefault sculptorBaseWaitDefault
        (fun _ => .error "overloaded") = (.raised "overloaded", []) ∧
    invokeWithRetryArtisan 3 (fun _ => .error "overloaded") =
      (.raised "overloaded", []) := by
  exact ⟨by decide, by decide, by decide, by decide, by decide⟩

/-- A fatal invocation is in particular error-classified. -/
theorem isFatal_hasError {step : Nat} {c : ToolInvocation}
    (h : isFatalInvocation step c = true) : invocationHasError c = true := by
  simp only [isFatalInvocation, Bool.and_eq_true] at h
  exact h.1.2

/-- Unfolding of the executor loop at a fatal invocation: the loop
records the error, sets the critical message and stops. -/
theorem processToolCalls_fatal (step : Nat) (c : ToolInvocation)
    (rest : List ToolInvocation) (hc : isFatalInvocation step c = true) :
    processToolCalls step (c :: rest) =
      { issued := [c], newErrors := [errorEntry step c],
        critical := some ("Step " ++ toString step ++ " failed: "
          ++ take200 c.result) } := by
  simp [processToolCalls, isFatal_hasError hc, hc]

/-- Unfolding of the executor loop at a non-fatal invocation: the loop
records the invocation (and its error entry, when error-classified) and
continues with the rest. -/
theorem processToolCalls_nonfatal (step : Nat) (c : ToolInvocation)
    (rest : List ToolInvocation) (hc : isFatalInvocation step c = false) :
    processToolCalls step (c :: rest) =
      { issued := c :: (processToolCalls step rest).issued,
        newErrors :=
          (if invocationHasError c then
            errorEntry step c :: (processToolCalls step rest).newErrors
          else (processToolCalls step rest).newErrors),
        critical := (processToolCalls step rest).critical } := by
  by_cases he : invocationHasError c <;> simp [processToolCalls, he, hc]

/-- The executor loop stops at the first fatal invocation. -/
theorem processToolCalls_halts_at_fatal (step : Nat) :
    ∀ (pre : List ToolInvocation) (c : ToolInvocation) (post : List ToolInvocation),
      (∀ p ∈ pre, isFatalInvocation step p = false) →
      isFatalInvocation step c = true →
      (processToolCalls step (pre ++ c :: post)).critical =
        some ("Step " ++ toString step ++ " failed: " ++ take200 c.result) ∧
      (processToolCalls step (pre ++ c :: post)).issued = pre ++ [c] := by
  intro pre
  induction pre with
  | nil =>
      intro c post _ hc
      rw [List.nil_append, processToolCalls_fatal step c post hc]
      exact ⟨rfl, rfl⟩
  | cons p pre ih =>
      intro c post hpre hc
      have hp : isFatalInvocation step p = false := hpre p (by simp)
      have hrest : ∀ q ∈ pre, isFatalInvocation step q = false := by
        intro q hq; exact hpre q (by simp [hq])
      have h := ih c post hrest hc
      rw [List.cons_append, processToolCalls_nonfatal step p _ hp]
      refine ⟨h.1, ?_⟩
      simp only [h.2, List.cons_append]

/-- With no fatal invocation the executor loop runs every invocation,
sets no critical error, and records exactly the error-classified ones. -/
theorem processToolCalls_no_fatal (step : Nat) :
    ∀ (calls : List ToolInvocation),
      (∀ p ∈ calls, isFatalInvocation step p = false) →
      (processToolCalls step calls).critical = none ∧
      (processToolCalls step calls).issued = calls ∧
      (processToolCalls step calls).newErrors.length =
        (calls.filter (fun p => invocationHasError p)).length := by
  intro calls
  induction calls with
  | nil => intro _; exact ⟨rfl, rfl, rfl⟩
  | cons c rest ih =>
      intro h
      have hc : isFatalInvocation step c = false := h c (by simp)
      have hrest : ∀ q ∈ rest, isFatalInvocation step q = false := by
        intro q hq; exact h q (by simp [hq])
      have hr := ih hrest
      rw [processToolCalls_nonfatal step c rest hc]
      by_cases he : invocationHasError c
      · simp only [he, if_pos, List.filter_cons, if_true]
        exact ⟨hr.1, by simp [hr.2.1], by simp [hr.2.2, he]⟩
      · simp only [he]
        exact ⟨hr.1, by simp [hr.2.1], by simp [hr.2.2, he]⟩

/-- Claim C3 as amended: the fail-fast rule applies only to invocations
of the `execute_blender_code` tool.  During a foundational step
(`current_step ≤ 5`) the first invocation of that tool whose
error-classified result also matches a fatal pattern sets
`critical_error` and stops the loop — the remaining invocations are not
executed; every run with no such invocation executes all invocations,
leaves `critical_error` unset and records exactly the error-classified
outcomes in `execution_errors` without halting.  An error-classified
result with a fatal pattern on any other tool does not halt the step. -/
theorem C3_fatal_fail_fast :
    ∀ (step : Nat) (pre post calls : List ToolInvocation) (c : ToolInvocation),
      (calls = pre ++ c :: post →
        (∀ p ∈ pre, isFatalInvocation step p = false) →
        isFatalInvocation step c = true →
        (processToolCalls step calls).critical =
          some ("Step " ++ toString step ++ " failed: " ++ take200 c.result) ∧
        (processToolCalls step calls).issued = pre ++ [c]) ∧
      ((∀ p ∈ calls, isFatalInvocation step p = false) →
        (processToolCalls step calls).critical = none ∧
        (processToolCalls step calls).issued = calls ∧
        (processToolCalls step calls).newErrors.length =
          (calls.filter (fun p => invocationHasError p)).length) := by
  intro step pre post calls c
  constructor
  · intro hcalls hpre hc
    rw [hcalls]
    exact processToolCalls_halts_at_fatal step pre c post hpre hc
  · intro h
    exact processToolCalls_no_fatal step calls h

/-- The fatal invocation of the C3 witness scenario. -/
def witFatalC3 : ToolInvocation :=
  { toolName := "execute_blender_code", success := false,
    result := "Error: KeyError: Specular" }

/-- The non-fatal invocation preceding it. -/
def witOkC3 : ToolInvocation :=
  { toolName := "execute_blender_code", success := true, result := "Mesh created" }

/-- The invocation that would have run after the fatal one. -/
def witPostC3 : ToolInvocation :=
  { toolName := "get_scene_info", success := true, result := "objects: 2" }

/-- Witness for C3: at step 3 a fatal `execute_blender_code` failure
after one successful call halts the loop before the third invocation,
while the successful prefix alone runs to completion with no critical
error. -/
theorem C3_fatal_fail_fast_witness :
    ((processToolCalls 3 [witOkC3, witFatalC3, witPostC3]).critical =
      some ("Step " ++ toString 3 ++ " failed: " ++ take200 witFatalC3.result) ∧
     (processToolCalls 3 [witOkC3, witFatalC3, witPostC3]).issued =
       [witOkC3] ++ [witFatalC3]) ∧
    ((processToolCalls 3 [witOkC3]).critical = none ∧
     (processToolCalls 3 [witOkC3]).issued = [witOkC3] ∧
     (processToolCalls 3 [witOkC3]).newErrors.length =
       ([witOkC3].filter (fun p => invocationHasError p)).length) :=
  ⟨(C3_fatal_fail_fast 3 [witOkC3] [witPostC3] [witOkC3, witFatalC3, witPostC3]
      witFatalC3).1 rfl (by decide) (by decide),
   (C3_fatal_fail_fast 3 [] [] [witOkC3] witFatalC3).2 (by decide)⟩

/-- The counterexample invocation for C3: a tool other than
`execute_blender_code` whose result text is both error-classified and a
fatal-pattern match. -/
def cexInvC3 : ToolInvocation :=
  { toolName := "get_object_info", success := true, result := "Object not found" }

/-- Counterexample for claim C3: at foundational step 3 an invocation
that is error-classified with the fatal pattern `not found` does NOT
halt the step when its tool is not `execute_blender_code` — no critical
error is set and the remaining invocation still executes, contradicting
the claim's "for every tool invocation". -/
theorem C3_non_code_tool_not_fatal :
    invocationHasError cexInvC3 = true ∧
    fatalTextMatch cexInvC3 = true ∧
    (processToolCalls 3 [cexInvC3,
      { toolName := "execute_blender_code", success := true, result := "ok" }]).critical
      = none ∧
    (processToolCalls 3 [cexInvC3,
      { toolName := "execute_blender_code", success := true, result := "ok" }]).issued
      = [cexInvC3,
         { toolName := "execute_blender_code", success := true, result := "ok" }] := by
  exact ⟨by decide, by decide, by decide, by decide⟩

/-- Characterization of the quality-gate decision below the cap on
non-empty feedback: refinement is requested exactly when the score is
below the position-dependent threshold or a hazard keyword matches. -/
theorem assess_needs_char (score : Nat) (s : AgentState)
    (hfb : lastFeedback s ≠ "")
    (hcap : ¬ s.maxRefinementsPerStep ≤ s.refinementAttempts) :
    (assessQuality score s).needsRefinement =
      (decide (score < refinementThreshold s.currentStep) ||
        occlusionDetected (lastFeedback s)) := by
  unfold assessQuality
  rw [if_neg hfb]
  simp only [if_neg hcap]
  by_cases hr : (decide (score < refinementThreshold s.currentStep) ||
      occlusionDetected (lastFeedback s)) = true
  · simp [hr]
  · simp only [Bool.not_eq_true] at hr
    simp [hr]

/-- Claim C4 as amended: for every NON-EMPTY feedback text, step index
and attempt count below the refinement cap, the decision is refine
exactly when the extracted score is below the position-dependent
threshold (70 of 100 — that is, 7 of 10 — for step indices below 5, 60
for later steps) or a hazard keyword matches, and any hazard match
forces refine regardless of score.  When the feedback text is empty or
missing, the gate instead skips assessment and accepts. -/
theorem C4_quality_gate_decision :
    ∀ (score : Nat) (s : AgentState),
      lastFeedback s ≠ "" →
      s.refinementAttempts < s.maxRefinementsPerStep →
      (((assessQuality score s).needsRefinement = true) ↔
        (10 * score < (if s.currentStep < 5 then 70 else 60) ∨
          occlusionDetected (lastFeedback s) = true)) ∧
      (occlusionDetected (lastFeedback s) = true →
        (assessQuality score s).needsRefinement = true) := by
  intro score s hfb hlt
  have hcap : ¬ s.maxRefinementsPerStep ≤ s.refinementAttempts := by omega
  have hchar := assess_needs_char score s hfb hcap
  have hth : (10 * score < (if s.currentStep < 5 then 70 else 60)) ↔
      score < refinementThreshold s.currentStep := by
    unfold refinementThreshold
    by_cases h5 : s.currentStep < 5 <;> simp [h5] <;> omega
  constructor
  · rw [hchar]
    simp only [Bool.or_eq_true, decide_eq_true_eq]
    rw [hth]
  · intro hocc
    rw [hchar, hocc]
    simp

/-- The state of the C4 witness: hazard feedback under the cap. -/
def witStateC4 : AgentState :=
  { initialState true 2 with visionFeedback := ["the new mesh is hidden behind the wall"] }

/-- Witness for C4: a hazard keyword in the feedback forces refinement
even at a perfect score, at a concrete state below the cap. -/
theorem C4_quality_gate_decision_witness :
    (((assessQuality 9 witStateC4).needsRefinement = true) ↔
      (10 * 9 < (if witStateC4.currentStep < 5 then 70 else 60) ∨
        occlusionDetected (lastFeedback witStateC4) = true)) ∧
    (assessQuality 9 witStateC4).needsRefinement = true :=
  ⟨(C4_quality_gate_decision 9 witStateC4 (by decide) (by decide)).1,
   (C4_quality_gate_decision 9 witStateC4 (by decide) (by decide)).2 (by decide)⟩

/-- The state of the C4 counterexample: the vision model returned an
empty feedback text after a refinement cycle. -/
def cexStateC4 : AgentState :=
  { initialState true 2 with visionFeedback := [""] }

/-- Counterexample for claim C4: on the empty feedback text — whose
extracted score defaults to 5, i.e. 50 of 100, below the early-step
threshold of 70 — with the attempt count (0) below the cap (2), the gate
accepts instead of refining: the claimed "refine exactly when the score
falls below the threshold" fails for this feedback text. -/
theorem C4_empty_feedback_accepts :
    cexStateC4.refinementAttempts < cexStateC4.maxRefinementsPerStep ∧
    (10 * 5 < (if cexStateC4.currentStep < 5 then 70 else 60)) ∧
    (assessQuality 5 cexStateC4).needsRefinement = false := by
  exact ⟨by decide, by decide, by decide⟩

/-- No workflow node modifies the `enable_refinement` flag: it is set
once by `run` from the requirement JSON. -/
theorem nodeEffect_enable (o : OracleStep) (n : Node) (s : AgentState) :
    (nodeEffect o n s).enableRefinement = s.enableRefinement := by
  cases n with
  | analyzeScene => rfl
  | planning =>
      show (planNode o s).enableRefinement = s.enableRefinement
      unfold planNode planFresh
      split_ifs <;> rfl
  | executeStep =>
      show ((executeStepNode o.cancelled o.toolCalls s).1).enableRefinement =
        s.enableRefinement
      unfold executeStepNode
      dsimp only []
      split_ifs <;> (try rfl)
      split <;> rfl
  | captureFeedback =>
      show (captureFeedbackNode o s).enableRefinement = s.enableRefinement
      unfold captureFeedbackNode
      split_ifs <;> rfl
  | assessStep =>
      show (assessQuality o.score s).enableRefinement = s.enableRefinement
      unfold assessQuality
      dsimp only []
      split_ifs <;> rfl
  | refineStep => rfl
  | evaluateProgress =>
      show (evaluateProgressNode s).enableRefinement = s.enableRefinement
      unfold evaluateProgressNode
      split_ifs <;> rfl
  | completed => rfl
  | ended => rfl

/-- No workflow node modifies the refinement cap. -/
theorem nodeEffect_cap (o : OracleStep) (n : Node) (s : AgentState) :
    (nodeEffect o n s).maxRefinementsPerStep = s.maxRefinementsPerStep := by
  cases n with
  | analyzeScene => rfl
  | planning =>
      show (planNode o s).maxRefinementsPerStep = s.maxRefinementsPerStep
      unfold planNode planFresh
      split_ifs <;> rfl
  | executeStep =>
      show ((executeStepNode o.cancelled o.toolCalls s).1).maxRefinementsPerStep =
        s.maxRefinementsPerStep
      unfold executeStepNode
      dsimp only []
      split_ifs <;> (try rfl)
      split <;> rfl
  | captureFeedback =>
      show (captureFeedbackNode o s).maxRefinementsPerStep = s.maxRefinementsPerStep
      unfold captureFeedbackNode
      split_ifs <;> rfl
  | assessStep =>
      show (assessQuality o.score s).maxRefinementsPerStep = s.maxRefinementsPerStep
      unfold assessQuality
      dsimp only []
      split_ifs <;> rfl
  | refineStep => rfl
  | evaluateProgress =>
      show (evaluateProgressNode s).maxRefinementsPerStep = s.maxRefinementsPerStep
      unfold evaluateProgressNode
      split_ifs <;> rfl
  | completed => rfl
  | ended => rfl

/-- Every node except the refinement node leaves the attempt counter
unchanged or resets it to zero (the quality gate resets it on accept). -/
theorem nodeEffect_attempts (o : OracleStep) (n : Node) (s : AgentState)
    (h : n ≠ Node.refineStep) :
    (nodeEffect o n s).refinementAttempts = s.refinementAttempts ∨
    (nodeEffect o n s).refinementAttempts = 0 := by
  cases n with
  | analyzeScene => exact Or.inl rfl
  | planning =>
      refine Or.inl ?_
      show (planNode o s).refinementAttempts = s.refinementAttempts
      unfold planNode planFresh
      split_ifs <;> rfl
  | executeStep =>
      refine Or.inl ?_
      show ((executeStepNode o.cancelled o.toolCalls s).1).refinementAttempts =
        s.refinementAttempts
      unfold executeStepNode
      dsimp only []
      split_ifs <;> (try rfl)
      split <;> rfl
  | captureFeedback =>
      refine Or.inl ?_
      show (captureFeedbackNode o s).refinementAttempts = s.refinementAttempts
      unfold captureFeedbackNode
      split_ifs <;> rfl
  | assessStep =>
      show (assessQuality o.score s).refinementAttempts = s.refinementAttempts ∨
        (assessQuality o.score s).refinementAttempts = 0
      unfold assessQuality
      dsimp only []
      split_ifs <;> first
        | exact Or.inl rfl
        | exact Or.inr rfl
  | refineStep => exact absurd rfl h
  | evaluateProgress =>
      refine Or.inl ?_
      show (evaluateProgressNode s).refinementAttempts = s.refinementAttempts
      unfold evaluateProgressNode
      split_ifs <;> rfl
  | completed => exact Or.inl rfl
  | ended => exact Or.inl rfl

/-- A refinement request from the quality gate can only be issued below
the cap: on a state at or above the cap the gate forces accept, so a
`needs_refinement=True` output certifies `attempts < cap`. -/
theorem assess_needs_lt (score : Nat) (s : AgentState)
    (h : (assessQuality score s).needsRefinement = true) :
    (assessQuality score s).refinementAttempts <
      (assessQuality score s).maxRefinementsPerStep := by
  unfold assessQuality at h ⊢
  by_cases hfb : lastFeedback s = ""
  · rw [if_pos hfb] at h
    simp at h
  · rw [if_neg hfb] at h ⊢
    dsimp only [] at h ⊢
    by_cases hcap : s.maxRefinementsPerStep ≤ s.refinementAttempts
    · rw [if_pos hcap] at h
      simp at h
    · rw [if_neg hcap] at h ⊢
      by_cases hr : (decide (score < refinementThreshold s.currentStep) ||
          occlusionDetected (lastFeedback s)) = true
      · rw [if_pos hr]
        dsimp only []
        omega
      · rw [if_neg hr] at h
        simp at h

/-- The only edge into the refinement node leaves the quality gate, and
it is taken only when refinement is both requested and enabled. -/
theorem nextNode_eq_refine (n : Node) (s : AgentState)
    (h : nextNode n s = Node.refineStep) :
    n = Node.assessStep ∧ s.needsRefinement = true ∧
      s.enableRefinement = true := by
  cases n with
  | assessStep =>
      refine ⟨rfl, ?_⟩
      simp only [nextNode] at h
      by_cases hsr : shouldRefine s = "refine"
      · unfold shouldRefine at hsr
        by_cases he : s.enableRefinement = false
        · rw [if_pos he] at hsr
          exact absurd hsr (by decide)
        · rw [if_neg he] at hsr
          have he2 : s.enableRefinement = true := by
            cases hb : s.enableRefinement
            · exact absurd hb he
            · rfl
          by_cases hn : s.needsRefinement = true
          · exact ⟨hn, he2⟩
          · rw [if_neg hn] at hsr
            exact absurd hsr (by decide)
      · rw [if_neg hsr] at h
        exact absurd h (by simp)
  | analyzeScene => exact absurd h (by simp [nextNode])
  | planning => exact absurd h (by simp [nextNode])
  | executeStep => exact absurd h (by simp [nextNode])
  | captureFeedback => exact absurd h (by simp [nextNode])
  | refineStep => exact absurd h (by simp [nextNode])
  | evaluateProgress =>
      simp only [nextNode] at h
      by_cases hsc : shouldContinue s = "complete"
      · rw [if_pos hsc] at h
        exact absurd h (by simp)
      · rw [if_neg hsc] at h
        exact absurd h (by simp)
  | completed => exact absurd h (by simp [nextNode])
  | ended => exact absurd h (by simp [nextNode])

/-- Invariant carried by every workflow configuration: the attempt
counter is within the cap, and a configuration about to run the
refinement node is strictly below the cap. -/
def invCap (c : Node × AgentState) : Prop :=
  c.2.refinementAttempts ≤ c.2.maxRefinementsPerStep ∧
  (c.1 = Node.refineStep →
    c.2.refinementAttempts < c.2.maxRefinementsPerStep)

/-- One workflow transition preserves `invCap`. -/
theorem invCap_step (o : OracleStep) (c : Node × AgentState)
    (h : invCap c) : invCap (stepConfig o c) := by
  obtain ⟨n, s⟩ := c
  obtain ⟨h1, h2⟩ := h
  constructor
  · show (nodeEffect o n s).refinementAttempts ≤
      (nodeEffect o n s).maxRefinementsPerStep
    by_cases hn : n = Node.refineStep
    · subst hn
      have hlt := h2 rfl
      dsimp only [] at hlt
      show (refineStepNode s).refinementAttempts ≤
        (refineStepNode s).maxRefinementsPerStep
      unfold refineStepNode
      dsimp only []
      omega
    · rcases nodeEffect_attempts o n s hn with he | he
      · rw [he, nodeEffect_cap]
        exact h1
      · rw [he]
        exact Nat.zero_le _
  · intro hnext
    show (nodeEffect o n s).refinementAttempts <
      (nodeEffect o n s).maxRefinementsPerStep
    have hh := nextNode_eq_refine n (nodeEffect o n s) hnext
    obtain ⟨hn, hneeds, _⟩ := hh
    subst hn
    exact assess_needs_lt o.score s hneeds

/-- `invCap` holds at every reachable workflow configuration. -/
theorem invCap_run (enable : Bool) (cap : Nat) (oracle : Nat → OracleStep) :
    ∀ k : Nat, invCap (runFrom enable cap oracle k) := by
  intro k
  induction k with
  | zero =>
      refine ⟨Nat.zero_le _, ?_⟩
      intro h
      exact absurd h (by simp [runFrom])
  | succ k ih => exact invCap_step (oracle k) _ ih

/-- The oracle of the C1 counterexample run: a 1-step plan whose first
feedback reports occlusion with a low score (so one refinement runs),
after which the vision model returns an empty feedback text. -/
def cexOracleC1 : Nat → OracleStep
  | 1 => { defaultOracle with parsedSteps := ["model the vase"] }
  | 3 => { defaultOracle with visionText := "the vase is hidden behind object A" }
  | 4 => { defaultOracle with score := 2 }
  | 6 => { defaultOracle with visionText := "" }
  | _ => defaultOracle

/-- Counterexample for claim C1: after one refinement (counter at 1) the
vision model returns an empty feedback text; the quality gate skips
assessment and ACCEPTS (`needs_refinement=False`, the run proceeds to
the progress evaluation) without resetting the counter to 0 — so not
every accept decision resets the counter. -/
theorem C1_accept_without_reset :
    (runFrom true 2 cexOracleC1 8).1 = Node.evaluateProgress ∧
    (runFrom true 2 cexOracleC1 8).2.needsRefinement = false ∧
    (runFrom true 2 cexOracleC1 8).2.refinementAttempts = 1 := by
  exact ⟨by decide, by decide, by decide⟩

/-- Claim C1 as amended: starting from 0 the refinement counter never
exceeds the configured cap at any reachable workflow state; with the
counter at or above the cap the quality gate's decision is forced to
accept; and on every accept decision reached through an actual
assessment (non-empty vision feedback) the counter resets to 0 — when
the gate skips assessment for missing or empty feedback it accepts
without resetting the counter. -/
theorem C1_refinement_counter_cap :
    ∀ (enable : Bool) (cap : Nat) (oracle : Nat → OracleStep) (k : Nat)
      (score : Nat) (s : AgentState),
      (runFrom enable cap oracle k).2.refinementAttempts ≤
        (runFrom enable cap oracle k).2.maxRefinementsPerStep ∧
      (s.maxRefinementsPerStep ≤ s.refinementAttempts →
        (assessQuality score s).needsRefinement = false) ∧
      (lastFeedback s ≠ "" →
        (assessQuality score s).needsRefinement = false →
        (assessQuality score s).refinementAttempts = 0) := by
  intro enable cap oracle k score s
  refine ⟨(invCap_run enable cap oracle k).1, ?_, ?_⟩
  · intro hcap
    unfold assessQuality
    by_cases hfb : lastFeedback s = ""
    · rw [if_pos hfb]
    · rw [if_neg hfb]
      dsimp only []
      rw [if_pos hcap]
      simp
  · intro hfb hacc
    unfold assessQuality at hacc ⊢
    rw [if_neg hfb] at hacc ⊢
    dsimp only [] at hacc ⊢
    by_cases hcap : s.maxRefinementsPerStep ≤ s.refinementAttempts
    · rw [if_pos hcap] at hacc ⊢
      simp
    · rw [if_neg hcap] at hacc ⊢
      by_cases hr : (decide (score < refinementThreshold s.currentStep) ||
          occlusionDetected (lastFeedback s)) = true
      · rw [if_pos hr] at hacc
        simp at hacc
      · rw [if_neg hr]

/-- The accepted state of the C1 witness: positive feedback with the
counter exactly at the cap. -/
def witStateC1 : AgentState :=
  { initialState true 2 with
    visionFeedback := ["excellent detail, well lit"]
    refinementAttempts := 2 }

/-- Witness for C1: the bound on a concrete 6-transition run, the forced
accept at the cap, and the reset on that accept. -/
theorem C1_refinement_counter_cap_witness :
    (runFrom true 2 (fun _ => defaultOracle) 6).2.refinementAttempts ≤
      (runFrom true 2 (fun _ => defaultOracle) 6).2.maxRefinementsPerStep ∧
    (assessQuality 9 witStateC1).needsRefinement = false ∧
    (assessQuality 9 witStateC1).refinementAttempts = 0 :=
  ⟨(C1_refinement_counter_cap true 2 (fun _ => defaultOracle) 6 9 witStateC1).1,
   (C1_refinement_counter_cap true 2 (fun _ => defaultOracle) 6 9 witStateC1).2.1
     (by decide),
   (C1_refinement_counter_cap true 2 (fun _ => defaultOracle) 6 9 witStateC1).2.2
     (by decide)
     ((C1_refinement_counter_cap true 2 (fun _ => defaultOracle) 6 9 witStateC1).2.1
       (by decide))⟩

/-- Invariant of a run with refinement disabled: the refinement node is
never current, the flag stays off and the counter stays 0. -/
def invDisabled (c : Node × AgentState) : Prop :=
  c.1 ≠ Node.refineStep ∧ c.2.enableRefinement = false ∧
    c.2.refinementAttempts = 0

/-- One workflow transition preserves `invDisabled`. -/
theorem invDisabled_step (o : OracleStep) (c : Node × AgentState)
    (h : invDisabled c) : invDisabled (stepConfig o c) := by
  obtain ⟨n, s⟩ := c
  obtain ⟨hn, he, ha⟩ := h
  have he2 : (nodeEffect o n s).enableRefinement = false := by
    rw [nodeEffect_enable]; exact he
  have ha2 : (nodeEffect o n s).refinementAttempts = 0 := by
    rcases nodeEffect_attempts o n s hn with h1 | h1
    · rw [h1]; exact ha
    · exact h1
  refine ⟨?_, he2, ha2⟩
  intro hnext
  have hh := nextNode_eq_refine n (nodeEffect o n s) hnext
  rw [hh.2.2] at he2
  exact Bool.true_eq_false.mp he2

/-- `invDisabled` holds at every configuration of a disabled-refinement
run. -/
theorem invDisabled_run (cap : Nat) (oracle : Nat → OracleStep) :
    ∀ k : Nat, invDisabled (runFrom false cap oracle k) := by
  intro k
  induction k with
  | zero =>
      refine ⟨?_, rfl, rfl⟩
      intro h
      exact absurd h (by simp [runFrom])
  | succ k ih => exact invDisabled_step (oracle k) _ ih

/-- Claim C10: with `enable_refinement_steps=False` the refine/continue
router always answers continue regardless of `needs_refinement`, and
along the entire run the refinement node never becomes current and the
refinement counter never leaves 0 — whatever scores or hazards the
assessment produces. -/
theorem C10_refinement_disabled :
    ∀ (cap : Nat) (oracle : Nat → OracleStep) (k : Nat) (s : AgentState),
      (runFrom false cap oracle k).1 ≠ Node.refineStep ∧
      (runFrom false cap oracle k).2.refinementAttempts = 0 ∧
      (s.enableRefinement = false → shouldRefine s = "continue") := by
  intro cap oracle k s
  refine ⟨(invDisabled_run cap oracle k).1, (invDisabled_run cap oracle k).2.2, ?_⟩
  intro he
  unfold shouldRefine
  rw [if_pos he]

/-- The oracle of the C10 witness run: low scores and hazard feedback
that would trigger refinement were it enabled. -/
def witOracleC10 : Nat → OracleStep := fun _ =>
  { defaultOracle with
    parsedSteps := ["rough out the shape"]
    visionText := "the shape is hidden behind object B"
    score := 2 }

/-- Witness for C10 on a concrete 8-transition run with hazard feedback
and refinement disabled, plus the router on a state demanding
refinement. -/
theorem C10_refinement_disabled_witness :
    (runFrom false 2 witOracleC10 8).1 ≠ Node.refineStep ∧
    (runFrom false 2 witOracleC10 8).2.refinementAttempts = 0 ∧
    shouldRefine { initialState false 2 with needsRefinement := true } = "continue" :=
  ⟨(C10_refinement_disabled 2 witOracleC10 8
      { initialState false 2 with needsRefinement := true }).1,
   (C10_refinement_disabled 2 witOracleC10 8
      { initialState false 2 with needsRefinement := true }).2.1,
   (C10_refinement_disabled 2 witOracleC10 8
      { initialState false 2 with needsRefinement := true }).2.2 rfl⟩
